import Mathlib

/-!
Shallow embedding of the binance-futures-bearish-tracker pipeline.

JavaScript numbers are idealised as rationals.  The arrays produced by the
indicator calculators in `src/indicators/technical.ts` are padded with
`NaN`/`null` entries whose comparisons are always false in JavaScript; such
values are modelled by `Option ℚ` with `none` standing for `NaN`/`null`, and
every comparison involving `none` evaluates to `false`.  `Math.sqrt`, whose
exact value is irrational, is passed in as an explicit parameter `jsqrt`; no
theorem below depends on its values.
-/

namespace Tracker

/-- A JavaScript numeric value: `none` models `NaN` (or a `null` array pad). -/
abbrev JVal := Option ℚ

/-- JS addition, `NaN`-propagating. -/
def jadd : JVal → JVal → JVal
  | some a, some b => some (a + b)
  | _, _ => none

/-- JS subtraction, `NaN`-propagating. -/
def jsub : JVal → JVal → JVal
  | some a, some b => some (a - b)
  | _, _ => none

/-- JS multiplication, `NaN`-propagating. -/
def jmul : JVal → JVal → JVal
  | some a, some b => some (a * b)
  | _, _ => none

/-- JS division, `NaN`-propagating.  A zero denominator yields `none`: in the
source the only zero denominator arises as `0/0` (collapsed Bollinger band),
which is `NaN` in JavaScript. -/
def jdiv : JVal → JVal → JVal
  | some a, some b => if b = 0 then none else some (a / b)
  | _, _ => none

/-- JS `<` on possibly-`NaN` values: false when either side is `NaN`. -/
def jlt : JVal → JVal → Bool
  | some a, some b => decide (a < b)
  | _, _ => false

/-- JS `>` on possibly-`NaN` values: false when either side is `NaN`. -/
def jgt : JVal → JVal → Bool
  | some a, some b => decide (b < a)
  | _, _ => false

/-- `Math.sqrt` lifted to `JVal`, with the square root supplied as `jsqrt`. -/
def jsqrtV (jsqrt : ℚ → ℚ) : JVal → JVal
  | some a => some (jsqrt a)
  | none => none

/-! ## Data model (`src/models/types.ts`) -/

/-- K-line data (`Candle` in `types.ts`). -/
structure Candle where
  open_ : ℚ
  high : ℚ
  low : ℚ
  close : ℚ
  volume : ℚ
  closeTime : ℤ
deriving DecidableEq, Inhabited, Repr

/-- A detected reversal signal (`Signal` in `types.ts`). -/
structure Signal where
  name : String
  description : String
  strength : ℚ
deriving DecidableEq, Inhabited, Repr

/-- Technical-analysis result (`AnalysisResult` in `types.ts`).  The
`timestamp` field is set from the ambient wall clock (`Date.now()`) in the
source and is modelled as `none`. -/
structure AnalysisResult where
  symbol : String
  price : ℚ
  probability : ℚ
  signals : List Signal
  timeframe : Option String := none
  timestamp : Option ℤ := none
  highestPrice : Option ℚ := none
  dropPercent : Option ℚ := none
deriving DecidableEq, Inhabited, Repr

/-- Per-symbol tracking state (`TrackedSymbol` in `types.ts`, also the entry
type of the `trackedSymbols` map in `src/index.ts`). -/
structure TrackedSymbol where
  symbol : String
  lastPrice : ℚ
  highestPrice : ℚ
  lastUpdateTime : ℤ
  signals : List Signal
  downtrend : Bool
  downtrendConfirmed : Bool
  downtrendNotified : Bool
deriving DecidableEq, Inhabited, Repr

/-! ## Indicator calculators (`src/indicators/technical.ts`) -/

/-- One Wilder-smoothing step of the RSI loop body (`calculateRSI`, the
`for i = period + 1` loop). -/
def rsiStep (period : ℕ) (gl : ℚ × ℚ) (d : ℚ) : ℚ × ℚ :=
  if 0 ≤ d then
    ((gl.1 * ((period : ℚ) - 1) + d) / period, gl.2 * ((period : ℚ) - 1) / period)
  else
    (gl.1 * ((period : ℚ) - 1) / period, (gl.2 * ((period : ℚ) - 1) - d) / period)

/-- The RSI value pushed for a `(gains, losses)` pair (`calculateRSI`:
`losses === 0 ? 100 : 100 - 100 / (1 + gains / losses)`). -/
def rsiOf (gl : ℚ × ℚ) : ℚ :=
  if gl.2 = 0 then 100 else 100 - 100 / (1 + gl.1 / gl.2)

/-- `calculateRSI` of `technical.ts` (source default `period = 14`): returns
`[]` when fewer than `period + 1` candles, otherwise `period` leading `null`
pads followed by the RSI series. -/
def calculateRSI (candles : List Candle) (period : ℕ) : List JVal :=
  if candles.length < period + 1 then []
  else
    let closes := candles.map (·.close)
    let diffs := (closes.tail.zip closes).map (fun p => p.1 - p.2)
    let initGains := ((diffs.take period).filter (fun d => 0 ≤ d)).sum
    let initLosses := -((diffs.take period).filter (fun d => d < 0)).sum
    let states := (diffs.drop period).scanl (rsiStep period) (initGains, initLosses)
    List.replicate period none ++ states.map (fun s => some (rsiOf s))

/-- `calculateMA` of `technical.ts`: simple moving average with `NaN` pads
for the first `period - 1` entries.  The same formula is inlined three times
in `calculateMovingAverages`. -/
def calculateMA (data : List ℚ) (period : ℕ) : List JVal :=
  (List.range data.length).map (fun i =>
    if i + 1 < period then none
    else some (((data.drop (i + 1 - period)).take period).sum / period))

/-- `calculateEMA` of `technical.ts`: exponential moving average seeded with
the simple average of the first `period` entries, `NaN` pads in front.  When
`data` is shorter than `period` the JavaScript seed sum reads `undefined` and
every produced entry is `NaN`. -/
def calculateEMA (data : List ℚ) (period : ℕ) : List JVal :=
  if data.length < period then List.replicate (period - 1) none ++ [none]
  else
    let k : ℚ := 2 / ((period : ℚ) + 1)
    let init := (data.take period).sum / period
    let emas := (data.drop period).scanl (fun e x => x * k + e * (1 - k)) init
    List.replicate (period - 1) none ++ emas.map some

/-- Result record of `calculateMACD`. -/
structure MACDResult where
  MACD : List JVal
  signalLine : List JVal
  histogram : List JVal

/-- The write-back of `validSignal` entries onto valid (non-`NaN`) positions
of the MACD series (`calculateMACD`: the `validIndex` loop). -/
def assignValid : List JVal → List JVal → List JVal
  | [], _ => []
  | none :: rest, vs => none :: assignValid rest vs
  | some _ :: rest, [] => none :: assignValid rest []
  | some _ :: rest, v :: vs => v :: assignValid rest vs

/-- `calculateMACD` of `technical.ts` (source defaults 12/26/9).  The field
`signalLine` is the source's `signal` array. -/
def calculateMACD (candles : List Candle) (fastPeriod slowPeriod signalPeriod : ℕ) :
    MACDResult :=
  let closes := candles.map (·.close)
  let fastEMA := calculateEMA closes fastPeriod
  let slowEMA := calculateEMA closes slowPeriod
  let macdLine := (List.range closes.length).map
    (fun i => jsub (fastEMA.getD i none) (slowEMA.getD i none))
  let validMACD := macdLine.filterMap id
  let validSignal := calculateEMA validMACD signalPeriod
  let signalLine := assignValid macdLine validSignal
  let histogram := (List.range closes.length).map
    (fun i => jsub (macdLine.getD i none) (signalLine.getD i none))
  ⟨macdLine, signalLine, histogram⟩

/-- Result record of `calculateBollingerBands`. -/
structure BollingerBands where
  upper : List JVal
  middle : List JVal
  lower : List JVal

/-- `calculateBollingerBands` of `technical.ts` (source defaults
`period = 20`, `multiplier = 2`). -/
def calculateBollingerBands (jsqrt : ℚ → ℚ) (candles : List Candle)
    (period : ℕ) (multiplier : ℚ) : BollingerBands :=
  let closes := candles.map (·.close)
  let middle := calculateMA closes period
  let bands := (List.range closes.length).map (fun i =>
    if i + 1 < period then ((none : JVal), (none : JVal))
    else
      let m := middle.getD i none
      let devSum := (List.range period).foldl
        (fun acc j =>
          let d := jsub (some (closes.getD (i - j) 0)) m
          jadd acc (jmul d d)) (some 0)
      let stdDev := jsqrtV jsqrt (jdiv devSum (some (period : ℚ)))
      (jadd m (jmul (some multiplier) stdDev), jsub m (jmul (some multiplier) stdDev)))
  ⟨bands.map Prod.fst, middle, bands.map Prod.snd⟩

/-- Result record of `calculateMovingAverages`. -/
structure MovingAverages where
  ma20 : List JVal
  ma50 : List JVal
  ma200 : List JVal

/-- `calculateMovingAverages` of `technical.ts`: three inlined simple moving
averages over closes with periods 20, 50, 200 (same formula as
`calculateMA`). -/
def calculateMovingAverages (candles : List Candle) : MovingAverages :=
  let prices := candles.map (·.close)
  ⟨calculateMA prices 20, calculateMA prices 50, calculateMA prices 200⟩

/-! ## Signal detection and scoring (`src/indicators/analyzer.ts`) -/

/-- Check 1 of `analyzeSymbol`: RSI overbought (`rsi[lastIndex] > 70`),
strength `min(100, (rsi - 70) * 3.33)`. -/
def rsiSignal : JVal → List Signal
  | some v =>
    if 70 < v then
      [⟨"RSI 超买", "RSI(14) 超过 70 的超买区域", min 100 ((v - 70) * (333 / 100))⟩]
    else []
  | none => []

/-- Check 2 of `analyzeSymbol`: price near the upper Bollinger band
(`(close - middle) / (upper - middle) > 0.8`), strength
`min(100, ratio * 100)`. -/
def bollSignal (close : ℚ) (upper middle : JVal) : List Signal :=
  match jdiv (jsub (some close) middle) (jsub upper middle) with
  | some r =>
    if 4 / 5 < r then
      [⟨"接近布林带上轨", "价格处于布林带上方位置", min 100 (r * 100)⟩]
    else []
  | none => []

/-- Check 3 of `analyzeSymbol`: MACD bearish cross, fixed strength 90. -/
def macdCrossSignal (m s mPrev sPrev : JVal) : List Signal :=
  if jlt m s && jgt mPrev sPrev then
    [⟨"MACD 死叉", "MACD 线下穿信号线，表明动能减弱", 90⟩]
  else []

/-- Check 4 of `analyzeSymbol`: MA20/MA50 death cross, fixed strength 85. -/
def maDeathCrossSignal (a b aPrev bPrev : JVal) : List Signal :=
  if jlt a b && jgt aPrev bPrev then
    [⟨"均线死叉", "20 日均线下穿 50 日均线，形成死叉", 85⟩]
  else []

/-- Check 5 of `analyzeSymbol`: close breaks below MA200, fixed strength 80. -/
def supportBreakSignal (close : ℚ) (ma : JVal) (prevClose : ℚ) (maPrev : JVal) :
    List Signal :=
  if jlt (some close) ma && jgt (some prevClose) maPrev then
    [⟨"跌破长期支撑", "价格跌破 200 日均线支撑位", 80⟩]
  else []

/-- Check 6 of `analyzeSymbol`: volume spike (`> 1.5×`) without price
follow-through (`close ≤ prev close * 1.01`), fixed strength 75. -/
def volumeStallSignal (volume prevVolume close prevClose : ℚ) : List Signal :=
  if prevVolume * (3 / 2) < volume ∧ close ≤ prevClose * (101 / 100) then
    [⟨"放量滞涨", "成交量增加 50% 以上，但价格涨幅不足 1%", 75⟩]
  else []

/-- The six checks of `analyzeSymbol` (lines 82–163), in source order, fed
with the indicator values at `lastIndex` and `lastIndex - 1`. -/
def detectSignals (jsqrt : ℚ → ℚ) (candles : List Candle) : List Signal :=
  let lastIndex := candles.length - 1
  let lastCandle := candles.getD lastIndex default
  let prevCandle := candles.getD (lastIndex - 1) default
  let rsi := calculateRSI candles 14
  let bb := calculateBollingerBands jsqrt candles 20 2
  let macd := calculateMACD candles 12 26 9
  let mas := calculateMovingAverages candles
  rsiSignal (rsi.getD lastIndex none) ++
    bollSignal lastCandle.close (bb.upper.getD lastIndex none)
      (bb.middle.getD lastIndex none) ++
    macdCrossSignal (macd.MACD.getD lastIndex none)
      (macd.signalLine.getD lastIndex none)
      (macd.MACD.getD (lastIndex - 1) none)
      (macd.signalLine.getD (lastIndex - 1) none) ++
    maDeathCrossSignal (mas.ma20.getD lastIndex none)
      (mas.ma50.getD lastIndex none)
      (mas.ma20.getD (lastIndex - 1) none)
      (mas.ma50.getD (lastIndex - 1) none) ++
    supportBreakSignal lastCandle.close (mas.ma200.getD lastIndex none)
      prevCandle.close (mas.ma200.getD (lastIndex - 1) none) ++
    volumeStallSignal lastCandle.volume prevCandle.volume
      lastCandle.close prevCandle.close

/-- The probability aggregation of `analyzeSymbol` (lines 165–176):
`min(100, totalWeight / (n * 100) * 100)`, multiplied by 1.2 and capped again
when at least two signals fired; 0 when none fired. -/
def computeProbability (signals : List Signal) : ℚ :=
  let totalWeight := (signals.map (·.strength)).sum
  if 0 < signals.length then
    let p := min 100 (totalWeight / ((signals.length : ℚ) * 100) * 100)
    if 2 ≤ signals.length then min 100 (p * (12 / 10)) else p
  else 0

/-- `analyzeSymbol` of `analyzer.ts`.  `timestamp` (`Date.now()`) is
environmental and modelled as `none`; on an empty candle list the source
throws, here the sentinel `default` candle is read. -/
def analyzeSymbol (jsqrt : ℚ → ℚ) (symbol : String) (candles : List Candle) :
    AnalysisResult :=
  let lastIndex := candles.length - 1
  let lastCandle := candles.getD lastIndex default
  let signals := detectSignals jsqrt candles
  { symbol := symbol
    price := lastCandle.close
    probability := computeProbability signals
    signals := signals
    timeframe := some "1h"
    timestamp := none }

/-- The element type of the `symbols` argument of `analyzeSymbols`. -/
structure SymbolInfo where
  symbol : String
  lastPrice : ℚ
deriving DecidableEq, Repr

/-- `analyzeSymbols` of `analyzer.ts`.  The candle fetch is passed in as
`fetch`; a fetch failure (the source's thrown exception) is an
`Except.error`, caught by the loop's `try/catch` which logs and continues.
Symbols with fewer than 30 candles are skipped; otherwise `analyzeSymbol`
runs and `result.price` is overwritten with the symbol's `lastPrice`. -/
def analyzeSymbols (jsqrt : ℚ → ℚ) (fetch : String → Except String (List Candle)) :
    List SymbolInfo → List AnalysisResult
  | [] => []
  | s :: rest =>
    match fetch s.symbol with
    | .error _ => analyzeSymbols jsqrt fetch rest
    | .ok candles =>
      if candles.length < 30 then analyzeSymbols jsqrt fetch rest
      else
        { analyzeSymbol jsqrt s.symbol candles with price := s.lastPrice } ::
          analyzeSymbols jsqrt fetch rest

/-! ## Monitoring loop (`src/index.ts`, `startMonitoring`) -/

/-- A symbol newly added to the tracked map (`index.ts` lines 87–96 and the
analogous branch of `backtest/index.ts` lines 161–170): the initial high
point is the current price and all flags are clear. -/
def freshTracked (symbol : String) (price : ℚ) (now : ℤ) : TrackedSymbol :=
  { symbol := symbol
    lastPrice := price
    highestPrice := price
    lastUpdateTime := now
    signals := []
    downtrend := false
    downtrendConfirmed := false
    downtrendNotified := false }

/-- The price-update phase of a monitor cycle for an already-tracked symbol
(`index.ts` lines 100–116): a strictly higher observed price replaces the
high point and clears the three flags, then the latest price and time are
recorded. -/
def monitorPriceUpdate (t : TrackedSymbol) (price : ℚ) (now : ℤ) : TrackedSymbol :=
  let t1 :=
    if t.highestPrice < price then
      { t with highestPrice := price, downtrend := false,
               downtrendConfirmed := false, downtrendNotified := false }
    else t
  { t1 with lastPrice := price, lastUpdateTime := now }

/-- Outcome of the analysis phase of a monitor cycle: the new tracked state
and whether a weak-bullish (uptrend exhaustion) respectively a
confirmed-downtrend notification was queued for this symbol. -/
structure MonitorOutcome where
  state : TrackedSymbol
  weakBullishEmitted : Bool
  confirmedEmitted : Bool
deriving DecidableEq, Repr

/-- The analysis phase of a monitor cycle for one analysed symbol
(`index.ts` lines 133–177): signals are overwritten, the uptrend-exhaustion
check fires on `probability > 70` with price strictly below the high and no
prior `downtrend` flag, and the confirmed-downtrend check fires on a drop of
strictly more than 5% with notification-once gating. -/
def monitorAnalyze (t : TrackedSymbol) (probability : ℚ) (signals : List Signal) :
    MonitorOutcome :=
  let t1 := { t with signals := signals }
  let dropPercentage := (t1.highestPrice - t1.lastPrice) / t1.highestPrice * 100
  let w :=
    if 70 < probability ∧ t1.lastPrice < t1.highestPrice ∧ t1.downtrend = false then
      ({ t1 with downtrend := true }, true)
    else (t1, false)
  let c :=
    if 5 < dropPercentage ∧ w.1.downtrendConfirmed = false then
      let t3 := { w.1 with downtrendConfirmed := true }
      if t3.downtrendNotified = false then
        ({ t3 with downtrendNotified := true }, true)
      else (t3, false)
    else (w.1, false)
  ⟨c.1, w.2, c.2⟩

/-- One full monitor cycle as seen by a single already-tracked symbol that
appears in the gainers list: the price-update phase, then — only when
`analyzeSymbols` produced a result for it — the analysis phase. -/
def monitorCycle (t : TrackedSymbol) (price : ℚ) (now : ℤ)
    (analysis : Option (ℚ × List Signal)) : MonitorOutcome :=
  let t1 := monitorPriceUpdate t price now
  match analysis with
  | none => ⟨t1, false, false⟩
  | some a => monitorAnalyze t1 a.1 a.2

/-- `7 * 24 * 60 * 60 * 1000` milliseconds (`index.ts` line 264). -/
def oneWeekInMs : ℤ := 7 * 24 * 60 * 60 * 1000

/-- The cleanup sweep at the end of a monitor cycle (`index.ts` lines
262–272): every entry whose `lastUpdateTime` is more than one week older
than `now` is deleted. -/
def cleanupTracked (now : ℤ) (l : List TrackedSymbol) : List TrackedSymbol :=
  l.filter (fun t => !decide (oneWeekInMs < now - t.lastUpdateTime))

/-! ## Backtest loop (`src/backtest/index.ts`, `processDay`) -/

/-- The per-gainer update of `processDay` for an already-tracked symbol
(lines 112–158): new-high reset, downtrend-suspect on any price decline,
confirmation on `downtrend ∧ dropPercent ≥ 5`, then price/time update.
`resultSignals` is `some` when `analysisResults` contains this symbol. -/
def backtestUpdate (t : TrackedSymbol) (currentPrice : ℚ) (date : ℤ)
    (resultSignals : Option (List Signal)) : TrackedSymbol :=
  let t1 :=
    if t.highestPrice < currentPrice then
      { t with highestPrice := currentPrice, downtrend := false,
               downtrendConfirmed := false, downtrendNotified := false }
    else t
  let t2 :=
    if currentPrice < t1.lastPrice ∧ t1.downtrend = false then
      { t1 with downtrend := true, signals := resultSignals.getD t1.signals }
    else t1
  let dropPercent := (t2.highestPrice - currentPrice) / t2.highestPrice * 100
  let t3 :=
    if t2.downtrend = true ∧ 5 ≤ dropPercent ∧ t2.downtrendConfirmed = false then
      { t2 with downtrendConfirmed := true }
    else t2
  { t3 with lastPrice := currentPrice, lastUpdateTime := date }

/-- Outcome of the notification sweep of `processDay` for one symbol. -/
structure BacktestOutcome where
  state : TrackedSymbol
  uptrendFailureEmitted : Bool
  downtrendConfirmedEmitted : Bool
deriving DecidableEq, Repr

/-- The notification sweep of `processDay` for one tracked symbol (lines
178–227): an uptrend-failure signal is collected when `downtrend` is set and
the symbol is unnotified; a confirmed-downtrend signal is collected when
`downtrendConfirmed` is set and the symbol is unnotified, which also marks
it notified. -/
def backtestNotify (t : TrackedSymbol) : BacktestOutcome :=
  let up := t.downtrend && !t.downtrendNotified
  let conf := t.downtrendConfirmed && !t.downtrendNotified
  let t1 := if conf then { t with downtrendNotified := true } else t
  ⟨t1, up, conf⟩

/-- One backtest day as seen by a single already-tracked symbol that appears
in that day's gainers list: the per-gainer update followed by the
notification sweep. -/
def backtestDayStep (t : TrackedSymbol) (currentPrice : ℚ) (date : ℤ)
    (resultSignals : Option (List Signal)) : BacktestOutcome :=
  backtestNotify (backtestUpdate t currentPrice date resultSignals)

/-! ## Concrete inputs for witnesses -/

/-- A concrete stand-in for `Math.sqrt` used only to instantiate witnesses. -/
def jsqrt0 : ℚ → ℚ := fun _ => 0

/-- Thirty candles with strictly decreasing closes and constant volume: no
signal check fires on them. -/
def demoCandles : List Candle :=
  (List.range 30).map (fun i => ⟨0, 0, 0, (60 : ℚ) - i, 5, 0⟩)

/-- A candle list that is too short for analysis (fewer than 30 entries). -/
def shortCandles : List Candle :=
  (List.range 10).map (fun i => ⟨0, 0, 0, (60 : ℚ) - i, 5, 0⟩)

/-- A fetch returning `shortCandles` for every symbol. -/
def fetchShort : String → Except String (List Candle) := fun _ => .ok shortCandles

/-- A concrete tracked state whose confirmed-downtrend notification has
already been sent. -/
def notifiedState : TrackedSymbol := ⟨"SOLUSDT", 95, 100, 0, [], true, true, true⟩

/-- A concrete tracked state below its high with no flags set. -/
def suspectState : TrackedSymbol := ⟨"ADAUSDT", 90, 100, 0, [], false, false, false⟩

/-! ## Helper lemmas -/

set_option maxRecDepth 10000

theorem monitorPriceUpdate_fields (t : TrackedSymbol) (price : ℚ) (now : ℤ) :
    (monitorPriceUpdate t price now).lastPrice = price ∧
      (monitorPriceUpdate t price now).highestPrice =
        (if t.highestPrice < price then price else t.highestPrice) ∧
      (monitorPriceUpdate t price now).downtrend =
        (if t.highestPrice < price then false else t.downtrend) ∧
      (monitorPriceUpdate t price now).downtrendConfirmed =
        (if t.highestPrice < price then false else t.downtrendConfirmed) ∧
      (monitorPriceUpdate t price now).downtrendNotified =
        (if t.highestPrice < price then false else t.downtrendNotified) ∧
      (monitorPriceUpdate t price now).signals = t.signals := by
  simp only [monitorPriceUpdate]
  split_ifs <;> simp

theorem monitorAnalyze_keeps_prices (t : TrackedSymbol) (p : ℚ) (s : List Signal) :
    (monitorAnalyze t p s).state.highestPrice = t.highestPrice ∧
      (monitorAnalyze t p s).state.lastPrice = t.lastPrice := by
  simp only [monitorAnalyze]
  split_ifs <;> simp

theorem monitorAnalyze_at_high (t : TrackedSymbol) (p : ℚ) (s : List Signal)
    (h : t.lastPrice = t.highestPrice) :
    (monitorAnalyze t p s).state.downtrend = t.downtrend ∧
      (monitorAnalyze t p s).state.downtrendConfirmed = t.downtrendConfirmed ∧
      (monitorAnalyze t p s).state.downtrendNotified = t.downtrendNotified := by
  simp only [monitorAnalyze, h]
  split_ifs with h1 h2 h3 <;> simp_all <;> linarith

theorem min100_bounds {x : ℚ} (hx : 0 ≤ x) : 0 ≤ min 100 x ∧ min 100 x ≤ 100 :=
  ⟨le_min (by norm_num) hx, min_le_left _ _⟩

theorem rsiSignal_strength (v : JVal) :
    ∀ s ∈ rsiSignal v, 0 < s.strength ∧ s.strength ≤ 100 := by
  intro s hs
  cases v with
  | none => simp [rsiSignal] at hs
  | some q =>
    by_cases h : 70 < q
    · simp only [rsiSignal, if_pos h, List.mem_singleton] at hs
      subst hs
      exact ⟨lt_min (by norm_num) (by nlinarith), min_le_left _ _⟩
    · simp [rsiSignal, if_neg h] at hs

theorem bollSignal_strength (close : ℚ) (upper middle : JVal) :
    ∀ s ∈ bollSignal close upper middle, 0 < s.strength ∧ s.strength ≤ 100 := by
  intro s hs
  unfold bollSignal at hs
  cases hj : jdiv (jsub (some close) middle) (jsub upper middle) with
  | none => rw [hj] at hs; simp at hs
  | some r =>
    rw [hj] at hs
    by_cases h : 4/5 < r
    · simp only [if_pos h, List.mem_singleton] at hs
      subst hs
      exact ⟨lt_min (by norm_num) (by nlinarith), min_le_left _ _⟩
    · simp [if_neg h] at hs

theorem macdCrossSignal_strength (m s mPrev sPrev : JVal) :
    ∀ x ∈ macdCrossSignal m s mPrev sPrev, 0 < x.strength ∧ x.strength ≤ 100 := by
  intro x hx
  unfold macdCrossSignal at hx
  split at hx
  · simp at hx; subst hx; norm_num
  · simp at hx

theorem maDeathCrossSignal_strength (a b aPrev bPrev : JVal) :
    ∀ x ∈ maDeathCrossSignal a b aPrev bPrev, 0 < x.strength ∧ x.strength ≤ 100 := by
  intro x hx
  unfold maDeathCrossSignal at hx
  split at hx
  · simp at hx; subst hx; norm_num
  · simp at hx

theorem supportBreakSignal_strength (close : ℚ) (ma : JVal) (prevClose : ℚ) (maPrev : JVal) :
    ∀ x ∈ supportBreakSignal close ma prevClose maPrev, 0 < x.strength ∧ x.strength ≤ 100 := by
  intro x hx
  unfold supportBreakSignal at hx
  split at hx
  · simp at hx; subst hx; norm_num
  · simp at hx

theorem volumeStallSignal_strength (volume prevVolume close prevClose : ℚ) :
    ∀ x ∈ volumeStallSignal volume prevVolume close prevClose,
      0 < x.strength ∧ x.strength ≤ 100 := by
  intro x hx
  unfold volumeStallSignal at hx
  split at hx
  · simp at hx; subst hx; norm_num
  · simp at hx

theorem detectSignals_strength (jsqrt : ℚ → ℚ) (candles : List Candle) :
    ∀ s ∈ detectSignals jsqrt candles, 0 < s.strength ∧ s.strength ≤ 100 := by
  intro s hs
  unfold detectSignals at hs
  simp only [List.mem_append] at hs
  rcases hs with ((((h | h) | h) | h) | h) | h
  · exact rsiSignal_strength _ s h
  · exact bollSignal_strength _ _ _ s h
  · exact macdCrossSignal_strength _ _ _ _ s h
  · exact maDeathCrossSignal_strength _ _ _ _ s h
  · exact supportBreakSignal_strength _ _ _ _ s h
  · exact volumeStallSignal_strength _ _ _ _ s h

theorem div_weight (w : ℚ) (n : ℕ) (hn : 0 < n) : w / ((n : ℚ) * 100) * 100 = w / n := by
  have h : ((n : ℚ)) ≠ 0 := Nat.cast_ne_zero.mpr hn.ne'
  field_simp
  ring

theorem computeProbability_bounds (l : List Signal)
    (h : ∀ s ∈ l, 0 ≤ s.strength) :
    0 ≤ computeProbability l ∧ computeProbability l ≤ 100 := by
  have hw : 0 ≤ (l.map (·.strength)).sum := by
    apply List.sum_nonneg
    intro x hx
    obtain ⟨s, hs, rfl⟩ := List.mem_map.mp hx
    exact h s hs
  unfold computeProbability
  split_ifs with h1 h2
  · have hc : (0:ℚ) < (l.length : ℚ) := by exact_mod_cast h1
    have hx : 0 ≤ (l.map (·.strength)).sum / ((l.length : ℚ) * 100) * 100 := by positivity
    have hp := min100_bounds hx
    have hx2 : 0 ≤ min 100 ((l.map (·.strength)).sum / ((l.length : ℚ) * 100) * 100) * (12/10) := by
      nlinarith [hp.1]
    exact min100_bounds hx2
  · have hc : (0:ℚ) < (l.length : ℚ) := by exact_mod_cast h1
    have hx : 0 ≤ (l.map (·.strength)).sum / ((l.length : ℚ) * 100) * 100 := by positivity
    exact min100_bounds hx
  · norm_num

theorem computeProbability_mean (l : List Signal)
    (hle : ∀ s ∈ l, s.strength ≤ 100) :
    (l.length = 1 →
      computeProbability l = min 100 ((l.map (·.strength)).sum / (l.length : ℚ))) ∧
    (2 ≤ l.length →
      computeProbability l =
        min 100 ((l.map (·.strength)).sum / (l.length : ℚ) * (12/10))) := by
  constructor
  · intro h1
    unfold computeProbability
    rw [if_pos (by omega), if_neg (by omega), div_weight _ _ (by omega)]
  · intro h2
    have h1 : 0 < l.length := by omega
    unfold computeProbability
    rw [if_pos h1, if_pos h2, div_weight _ _ h1]
    have hsum : (l.map (·.strength)).sum ≤ (l.length : ℚ) * 100 := by
      have := List.sum_le_card_nsmul (l.map (·.strength)) 100 (by
        intro x hx
        obtain ⟨s, hs, rfl⟩ := List.mem_map.mp hx
        exact hle s hs)
      simpa [nsmul_eq_mul, mul_comm] using this
    have hc : (0:ℚ) < (l.length : ℚ) := by exact_mod_cast h1
    have hmean : (l.map (·.strength)).sum / (l.length : ℚ) ≤ 100 := by
      rw [div_le_iff₀ hc]; nlinarith
    rw [min_eq_right hmean]

/-! ## Claims -/

/-- C1: For every tracked symbol and every update step (full monitor cycle or
backtest day), the stored `highestPrice` never decreases, it is replaced only
by a strictly larger observed price, and whenever the observed price exceeds
the stored `highestPrice` that same update leaves all three booleans
`downtrend`, `downtrendConfirmed` and `downtrendNotified` false.  The
hypothesis `lastPrice ≤ highestPrice` is an invariant of all reachable
tracked states (fresh symbols start with the two equal). -/
theorem highestPrice_monotone_and_reset (t : TrackedSymbol) (price : ℚ)
    (now date : ℤ) (analysis : Option (ℚ × List Signal))
    (rsig : Option (List Signal))
    (hlp : t.lastPrice ≤ t.highestPrice) :
    (t.highestPrice ≤ (monitorCycle t price now analysis).state.highestPrice ∧
      ((monitorCycle t price now analysis).state.highestPrice = t.highestPrice ∨
        (t.highestPrice < price ∧
          (monitorCycle t price now analysis).state.highestPrice = price)) ∧
      (t.highestPrice < price →
        (monitorCycle t price now analysis).state.downtrend = false ∧
        (monitorCycle t price now analysis).state.downtrendConfirmed = false ∧
        (monitorCycle t price now analysis).state.downtrendNotified = false)) ∧
    (t.highestPrice ≤ (backtestDayStep t price date rsig).state.highestPrice ∧
      ((backtestDayStep t price date rsig).state.highestPrice = t.highestPrice ∨
        (t.highestPrice < price ∧
          (backtestDayStep t price date rsig).state.highestPrice = price)) ∧
      (t.highestPrice < price →
        (backtestDayStep t price date rsig).state.downtrend = false ∧
        (backtestDayStep t price date rsig).state.downtrendConfirmed = false ∧
        (backtestDayStep t price date rsig).state.downtrendNotified = false)) := by
  constructor
  · cases analysis with
    | none =>
      simp only [monitorCycle, monitorPriceUpdate]
      split_ifs <;> simp_all <;> linarith
    | some a =>
      simp only [monitorCycle]
      obtain ⟨hh, hl⟩ := monitorAnalyze_keeps_prices (monitorPriceUpdate t price now) a.1 a.2
      obtain ⟨f1, f2, f3, f4, f5, f6⟩ := monitorPriceUpdate_fields t price now
      refine ⟨?_, ?_, ?_⟩
      · rw [hh, f2]; split_ifs <;> simp_all <;> linarith
      · rw [hh, f2]; split_ifs with h <;> simp_all
      · intro hp
        have hhigh : (monitorPriceUpdate t price now).lastPrice =
            (monitorPriceUpdate t price now).highestPrice := by
          rw [f1, f2]; simp [hp]
        obtain ⟨g1, g2, g3⟩ :=
          monitorAnalyze_at_high (monitorPriceUpdate t price now) a.1 a.2 hhigh
        rw [g1, g2, g3, f3, f4, f5]
        simp [hp]
  · simp only [backtestDayStep, backtestNotify, backtestUpdate]
    split_ifs <;> simp_all <;> linarith

/-- Witness for C1 at a fresh tracked symbol observing a new high. -/
theorem highestPrice_monotone_and_reset_witness :
    (freshTracked "BTCUSDT" 10 0).lastPrice ≤ (freshTracked "BTCUSDT" 10 0).highestPrice ∧
    (((freshTracked "BTCUSDT" 10 0).highestPrice ≤
        (monitorCycle (freshTracked "BTCUSDT" 10 0) 12 1 none).state.highestPrice ∧
      ((monitorCycle (freshTracked "BTCUSDT" 10 0) 12 1 none).state.highestPrice =
          (freshTracked "BTCUSDT" 10 0).highestPrice ∨
        ((freshTracked "BTCUSDT" 10 0).highestPrice < 12 ∧
          (monitorCycle (freshTracked "BTCUSDT" 10 0) 12 1 none).state.highestPrice = 12)) ∧
      ((freshTracked "BTCUSDT" 10 0).highestPrice < 12 →
        (monitorCycle (freshTracked "BTCUSDT" 10 0) 12 1 none).state.downtrend = false ∧
        (monitorCycle (freshTracked "BTCUSDT" 10 0) 12 1 none).state.downtrendConfirmed = false ∧
        (monitorCycle (freshTracked "BTCUSDT" 10 0) 12 1 none).state.downtrendNotified = false)) ∧
    ((freshTracked "BTCUSDT" 10 0).highestPrice ≤
        (backtestDayStep (freshTracked "BTCUSDT" 10 0) 12 2 none).state.highestPrice ∧
      ((backtestDayStep (freshTracked "BTCUSDT" 10 0) 12 2 none).state.highestPrice =
          (freshTracked "BTCUSDT" 10 0).highestPrice ∨
        ((freshTracked "BTCUSDT" 10 0).highestPrice < 12 ∧
          (backtestDayStep (freshTracked "BTCUSDT" 10 0) 12 2 none).state.highestPrice = 12)) ∧
      ((freshTracked "BTCUSDT" 10 0).highestPrice < 12 →
        (backtestDayStep (freshTracked "BTCUSDT" 10 0) 12 2 none).state.downtrend = false ∧
        (backtestDayStep (freshTracked "BTCUSDT" 10 0) 12 2 none).state.downtrendConfirmed = false ∧
        (backtestDayStep (freshTracked "BTCUSDT" 10 0) 12 2 none).state.downtrendNotified = false))) :=
  ⟨le_refl _,
    highestPrice_monotone_and_reset (freshTracked "BTCUSDT" 10 0) 12 1 2 none none (le_refl _)⟩

/-- Counterexample to C2 as stated: a tracked symbol sitting exactly 5% below
its recorded high (high 100, price 95, `dropPercent = 5 ≥ 5`) is NOT
confirmed by the monitoring loop and no notification is produced, because the
source tests `dropPercentage > 5` strictly. -/
theorem monitor_no_confirm_at_exactly_five_percent :
    (monitorPriceUpdate (freshTracked "ABCUSDT" 100 0) 95 0).downtrendConfirmed = false ∧
    5 ≤ ((monitorPriceUpdate (freshTracked "ABCUSDT" 100 0) 95 0).highestPrice -
         (monitorPriceUpdate (freshTracked "ABCUSDT" 100 0) 95 0).lastPrice) /
        (monitorPriceUpdate (freshTracked "ABCUSDT" 100 0) 95 0).highestPrice * 100 ∧
    (monitorAnalyze (monitorPriceUpdate (freshTracked "ABCUSDT" 100 0) 95 0)
        0 []).state.downtrendConfirmed = false ∧
    (monitorAnalyze (monitorPriceUpdate (freshTracked "ABCUSDT" 100 0) 95 0)
        0 []).confirmedEmitted = false := by
  with_unfolding_all decide

/-- C2 (amended): an unconfirmed, unnotified tracked symbol is confirmed by
the monitoring loop (with a notification emitted) exactly when the drop from
the recorded high strictly exceeds 5%; the backtest loop confirms exactly
when no new high occurred, the downtrend flag was already set or the price
fell below the previous price, and the drop is at least 5%; the backtest
emits its confirmed-downtrend notification in the same day-step exactly when
it confirms. -/
theorem confirm_threshold_amended (t : TrackedSymbol) (p : ℚ) (sigs : List Signal)
    (price : ℚ) (date : ℤ) (rsig : Option (List Signal))
    (hc : t.downtrendConfirmed = false) (hn : t.downtrendNotified = false) :
    (((monitorAnalyze t p sigs).state.downtrendConfirmed = true ∧
        (monitorAnalyze t p sigs).confirmedEmitted = true) ↔
      5 < (t.highestPrice - t.lastPrice) / t.highestPrice * 100) ∧
    ((backtestDayStep t price date rsig).state.downtrendConfirmed = true ↔
      (¬ t.highestPrice < price ∧ (t.downtrend = true ∨ price < t.lastPrice) ∧
        5 ≤ (t.highestPrice - price) / t.highestPrice * 100)) ∧
    ((backtestDayStep t price date rsig).downtrendConfirmedEmitted =
      (backtestDayStep t price date rsig).state.downtrendConfirmed) := by
  refine ⟨?_, ?_, ?_⟩
  · simp only [monitorAnalyze]
    split_ifs <;> simp_all
  · simp only [backtestDayStep, backtestNotify, backtestUpdate]
    split_ifs <;> simp_all <;> tauto
  · simp only [backtestDayStep, backtestNotify, backtestUpdate]
    split_ifs <;> simp_all

/-- Witness for C2 (amended) at an unconfirmed symbol 10% below its high. -/
theorem confirm_threshold_amended_witness :
    suspectState.downtrendConfirmed = false ∧ suspectState.downtrendNotified = false ∧
    ((((monitorAnalyze suspectState 0 []).state.downtrendConfirmed = true ∧
        (monitorAnalyze suspectState 0 []).confirmedEmitted = true) ↔
      5 < (suspectState.highestPrice - suspectState.lastPrice) /
        suspectState.highestPrice * 100) ∧
    ((backtestDayStep suspectState 90 1 none).state.downtrendConfirmed = true ↔
      (¬ suspectState.highestPrice < 90 ∧
        (suspectState.downtrend = true ∨ (90:ℚ) < suspectState.lastPrice) ∧
        5 ≤ (suspectState.highestPrice - 90) / suspectState.highestPrice * 100)) ∧
    ((backtestDayStep suspectState 90 1 none).downtrendConfirmedEmitted =
      (backtestDayStep suspectState 90 1 none).state.downtrendConfirmed)) :=
  ⟨rfl, rfl, confirm_threshold_amended suspectState 0 [] 90 1 none rfl rfl⟩

/-- Counterexample to C3 as stated: one monitor cycle from a fresh symbol
(high 100) at price 94 with probability 0 yields a state with
`downtrendConfirmed = true` but `downtrend = false` — the monitor's
confirmation branch does not require the downtrend-suspected flag, so
`downtrendConfirmed` does not imply `downtrend` and the pipeline order
normal → suspected → confirmed is skipped. -/
theorem monitor_confirmed_without_downtrend_flag :
    (monitorCycle (freshTracked "XYZUSDT" 100 0) 94 0
        (some (0, []))).state.downtrendConfirmed = true ∧
    (monitorCycle (freshTracked "XYZUSDT" 100 0) 94 0
        (some (0, []))).state.downtrend = false := by
  with_unfolding_all decide

/-- C3 (amended): in both loops `downtrendNotified` implies
`downtrendConfirmed` (preserved by every step, so it holds in every reachable
state), and a set flag is cleared only by an update whose observed price
strictly exceeds the stored high; the implication
`downtrendConfirmed → downtrend` is preserved by the backtest step (stated as
a local antecedent of that conjunct only, since the monitoring loop does not
maintain it: it can confirm without the downtrend flag). -/
theorem flag_chain_amended (t : TrackedSymbol) (price : ℚ) (now date : ℤ)
    (analysis : Option (ℚ × List Signal)) (rsig : Option (List Signal))
    (hm : t.downtrendNotified = true → t.downtrendConfirmed = true) :
    (((monitorCycle t price now analysis).state.downtrendNotified = true →
        (monitorCycle t price now analysis).state.downtrendConfirmed = true) ∧
      ((t.downtrend = true ∧ (monitorCycle t price now analysis).state.downtrend = false) ∨
        (t.downtrendConfirmed = true ∧
          (monitorCycle t price now analysis).state.downtrendConfirmed = false) ∨
        (t.downtrendNotified = true ∧
          (monitorCycle t price now analysis).state.downtrendNotified = false) →
        t.highestPrice < price)) ∧
    (((backtestDayStep t price date rsig).state.downtrendNotified = true →
        (backtestDayStep t price date rsig).state.downtrendConfirmed = true) ∧
      ((t.downtrendConfirmed = true → t.downtrend = true) →
        (backtestDayStep t price date rsig).state.downtrendConfirmed = true →
        (backtestDayStep t price date rsig).state.downtrend = true) ∧
      ((t.downtrend = true ∧ (backtestDayStep t price date rsig).state.downtrend = false) ∨
        (t.downtrendConfirmed = true ∧
          (backtestDayStep t price date rsig).state.downtrendConfirmed = false) ∨
        (t.downtrendNotified = true ∧
          (backtestDayStep t price date rsig).state.downtrendNotified = false) →
        t.highestPrice < price)) := by
  constructor
  · cases analysis with
    | none =>
      simp only [monitorCycle, monitorPriceUpdate]
      split_ifs <;> simp_all
    | some a =>
      simp only [monitorCycle, monitorPriceUpdate, monitorAnalyze]
      split_ifs <;> simp_all
  · refine ⟨?_, ?_, ?_⟩
    · simp only [backtestDayStep, backtestNotify, backtestUpdate]
      split_ifs <;> simp_all
    · intro hb
      simp only [backtestDayStep, backtestNotify, backtestUpdate]
      split_ifs <;> simp_all
    · simp only [backtestDayStep, backtestNotify, backtestUpdate]
      split_ifs <;> simp_all

/-- Witness for C3 (amended) at a fresh symbol taking a monitor cycle and a
backtest day at price 94. -/
theorem flag_chain_amended_witness :
    ((freshTracked "BNBUSDT" 100 0).downtrendNotified = true →
      (freshTracked "BNBUSDT" 100 0).downtrendConfirmed = true) ∧
    ((((monitorCycle (freshTracked "BNBUSDT" 100 0) 94 1 none).state.downtrendNotified = true →
        (monitorCycle (freshTracked "BNBUSDT" 100 0) 94 1 none).state.downtrendConfirmed = true) ∧
      (((freshTracked "BNBUSDT" 100 0).downtrend = true ∧
          (monitorCycle (freshTracked "BNBUSDT" 100 0) 94 1 none).state.downtrend = false) ∨
        ((freshTracked "BNBUSDT" 100 0).downtrendConfirmed = true ∧
          (monitorCycle (freshTracked "BNBUSDT" 100 0) 94 1 none).state.downtrendConfirmed = false) ∨
        ((freshTracked "BNBUSDT" 100 0).downtrendNotified = true ∧
          (monitorCycle (freshTracked "BNBUSDT" 100 0) 94 1 none).state.downtrendNotified = false) →
        (freshTracked "BNBUSDT" 100 0).highestPrice < 94)) ∧
    (((backtestDayStep (freshTracked "BNBUSDT" 100 0) 94 2 none).state.downtrendNotified = true →
        (backtestDayStep (freshTracked "BNBUSDT" 100 0) 94 2 none).state.downtrendConfirmed = true) ∧
      (((freshTracked "BNBUSDT" 100 0).downtrendConfirmed = true →
          (freshTracked "BNBUSDT" 100 0).downtrend = true) →
        (backtestDayStep (freshTracked "BNBUSDT" 100 0) 94 2 none).state.downtrendConfirmed = true →
        (backtestDayStep (freshTracked "BNBUSDT" 100 0) 94 2 none).state.downtrend = true) ∧
      (((freshTracked "BNBUSDT" 100 0).downtrend = true ∧
          (backtestDayStep (freshTracked "BNBUSDT" 100 0) 94 2 none).state.downtrend = false) ∨
        ((freshTracked "BNBUSDT" 100 0).downtrendConfirmed = true ∧
          (backtestDayStep (freshTracked "BNBUSDT" 100 0) 94 2 none).state.downtrendConfirmed = false) ∨
        ((freshTracked "BNBUSDT" 100 0).downtrendNotified = true ∧
          (backtestDayStep (freshTracked "BNBUSDT" 100 0) 94 2 none).state.downtrendNotified = false) →
        (freshTracked "BNBUSDT" 100 0).highestPrice < 94))) :=
  ⟨fun h => h,
    flag_chain_amended (freshTracked "BNBUSDT" 100 0) 94 1 2 none none (fun h => h)⟩

/-- C4: once `downtrendNotified` is set, an update step whose observed price
does not exceed the stored high emits no further confirmed-downtrend
notification and leaves the flag set, in both the monitoring loop and the
backtest loop. -/
theorem confirmed_notification_once (t : TrackedSymbol) (price : ℚ) (now date : ℤ)
    (analysis : Option (ℚ × List Signal)) (rsig : Option (List Signal))
    (hn : t.downtrendNotified = true) (hp : price ≤ t.highestPrice) :
    ((monitorCycle t price now analysis).confirmedEmitted = false ∧
      (monitorCycle t price now analysis).state.downtrendNotified = true) ∧
    ((backtestDayStep t price date rsig).downtrendConfirmedEmitted = false ∧
      (backtestDayStep t price date rsig).state.downtrendNotified = true) := by
  have hnl := not_lt.mpr hp
  constructor
  · cases analysis with
    | none => simp only [monitorCycle, monitorPriceUpdate]; split_ifs <;> simp_all
    | some a =>
      simp only [monitorCycle, monitorPriceUpdate, monitorAnalyze]
      split_ifs <;> simp_all
  · simp only [backtestDayStep, backtestNotify, backtestUpdate]
    split_ifs <;> simp_all

/-- Witness for C4 at an already-notified symbol observed below its high. -/
theorem confirmed_notification_once_witness :
    notifiedState.downtrendNotified = true ∧ (95:ℚ) ≤ notifiedState.highestPrice ∧
    (((monitorCycle notifiedState 95 3 (some (80, []))).confirmedEmitted = false ∧
      (monitorCycle notifiedState 95 3 (some (80, []))).state.downtrendNotified = true) ∧
    ((backtestDayStep notifiedState 95 4 none).downtrendConfirmedEmitted = false ∧
      (backtestDayStep notifiedState 95 4 none).state.downtrendNotified = true)) :=
  ⟨rfl, by norm_num [notifiedState],
    confirmed_notification_once notifiedState 95 3 4 (some (80, [])) none rfl
      (by norm_num [notifiedState])⟩

/-- C5: when at least one of the six signal checks fires, `analyzeSymbol`'s
probability equals the arithmetic mean of the fired signals' strengths capped
at 100; when two or more fire, that mean is additionally multiplied by 1.2
and capped at 100 again; when none fires, the probability is 0 and the
signal list is empty. -/
theorem analyzeSymbol_probability_aggregation (jsqrt : ℚ → ℚ) (symbol : String)
    (candles : List Candle) :
    ((analyzeSymbol jsqrt symbol candles).signals = [] →
      (analyzeSymbol jsqrt symbol candles).probability = 0) ∧
    ((analyzeSymbol jsqrt symbol candles).signals.length = 1 →
      (analyzeSymbol jsqrt symbol candles).probability =
        min 100 (((analyzeSymbol jsqrt symbol candles).signals.map (·.strength)).sum /
          ((analyzeSymbol jsqrt symbol candles).signals.length : ℚ))) ∧
    (2 ≤ (analyzeSymbol jsqrt symbol candles).signals.length →
      (analyzeSymbol jsqrt symbol candles).probability =
        min 100 (((analyzeSymbol jsqrt symbol candles).signals.map (·.strength)).sum /
          ((analyzeSymbol jsqrt symbol candles).signals.length : ℚ) * (12/10))) := by
  have hle : ∀ s ∈ detectSignals jsqrt candles, s.strength ≤ 100 :=
    fun s hs => (detectSignals_strength jsqrt candles s hs).2
  simp only [analyzeSymbol]
  refine ⟨?_, ?_, ?_⟩
  · intro h
    rw [h]
    simp [computeProbability]
  · exact (computeProbability_mean _ hle).1
  · exact (computeProbability_mean _ hle).2

/-- Witness for C5 on thirty strictly decreasing candles, where no signal
check fires and the probability is 0. -/
theorem analyzeSymbol_probability_aggregation_witness :
    (analyzeSymbol jsqrt0 "BTCUSDT" demoCandles).signals = [] ∧
    (analyzeSymbol jsqrt0 "BTCUSDT" demoCandles).probability = 0 :=
  ⟨by with_unfolding_all decide,
    (analyzeSymbol_probability_aggregation jsqrt0 "BTCUSDT" demoCandles).1
      (by with_unfolding_all decide)⟩

/-- C6: for every candle list with which the analyzer invokes
`analyzeSymbol` (at least 30 candles), the returned probability lies in the
closed interval from 0 to 100. -/
theorem analyzeSymbol_probability_range (jsqrt : ℚ → ℚ) (symbol : String)
    (candles : List Candle) (h : 30 ≤ candles.length) :
    0 ≤ (analyzeSymbol jsqrt symbol candles).probability ∧
      (analyzeSymbol jsqrt symbol candles).probability ≤ 100 := by
  simp only [analyzeSymbol]
  exact computeProbability_bounds _
    (fun s hs => (detectSignals_strength jsqrt candles s hs).1.le)

/-- Witness for C6 on the thirty-candle demo list. -/
theorem analyzeSymbol_probability_range_witness :
    30 ≤ demoCandles.length ∧
    (0 ≤ (analyzeSymbol jsqrt0 "ETHUSDT" demoCandles).probability ∧
      (analyzeSymbol jsqrt0 "ETHUSDT" demoCandles).probability ≤ 100) :=
  ⟨by decide, analyzeSymbol_probability_range jsqrt0 "ETHUSDT" demoCandles (by decide)⟩

/-- C7: in the monitoring loop, a tracked symbol not already flagged is
marked uptrend-exhausted (downtrend set, weak-bullish notification queued)
exactly when its reversal probability exceeds 70 and its current price is
strictly below its recorded `highestPrice`. -/
theorem uptrend_exhaustion_iff (t : TrackedSymbol) (p : ℚ) (sigs : List Signal)
    (hd : t.downtrend = false) :
    ((monitorAnalyze t p sigs).state.downtrend = true ∧
      (monitorAnalyze t p sigs).weakBullishEmitted = true) ↔
    (70 < p ∧ t.lastPrice < t.highestPrice) := by
  simp only [monitorAnalyze]
  split_ifs <;> simp_all

/-- Witness for C7 at an unflagged symbol below its high with probability 80. -/
theorem uptrend_exhaustion_iff_witness :
    suspectState.downtrend = false ∧
    (((monitorAnalyze suspectState 80 []).state.downtrend = true ∧
      (monitorAnalyze suspectState 80 []).weakBullishEmitted = true) ↔
      (70 < (80:ℚ) ∧ suspectState.lastPrice < suspectState.highestPrice)) :=
  ⟨rfl, uptrend_exhaustion_iff suspectState 80 [] rfl⟩

/-- C8: the cleanup sweep at the end of a monitoring cycle retains a tracked
symbol exactly when its `lastUpdateTime` is at most `7 * 24 * 60 * 60 * 1000`
milliseconds older than the current time; entries older than that are
removed. -/
theorem cleanup_removes_stale_iff (now : ℤ) (l : List TrackedSymbol)
    (t : TrackedSymbol) :
    t ∈ cleanupTracked now l ↔
      t ∈ l ∧ now - t.lastUpdateTime ≤ 7 * 24 * 60 * 60 * 1000 := by
  simp [cleanupTracked, List.mem_filter, oneWeekInMs, not_lt]

/-- C9: `analyzeSymbols` is total — a per-symbol failure is caught, the
symbol is skipped, and the returned list contains the analysis results of
exactly the symbols whose fetch succeeded with at least 30 candles, in input
order. -/
theorem analyzeSymbols_catches_failures (jsqrt : ℚ → ℚ)
    (fetch : String → Except String (List Candle)) (symbols : List SymbolInfo) :
    analyzeSymbols jsqrt fetch symbols =
      (symbols.filter (fun s =>
        match fetch s.symbol with
        | .ok c => decide (¬ c.length < 30)
        | .error _ => false)).map
        (fun s =>
          { analyzeSymbol jsqrt s.symbol ((fetch s.symbol).toOption.getD []) with
              price := s.lastPrice }) := by
  induction symbols with
  | nil => rfl
  | cons s rest ih =>
    simp only [analyzeSymbols, List.filter_cons]
    cases hf : fetch s.symbol with
    | error e => simpa [hf] using ih
    | ok c =>
      by_cases hl : c.length < 30
      · simpa [hf, hl] using ih
      · simp [hf, hl, Except.toOption, ih]

/-- C10: a symbol whose fetched candle list has fewer than 30 entries yields
no `AnalysisResult` from `analyzeSymbols`, and a monitor cycle without an
analysis result leaves the symbol's signal list unchanged and — absent a new
high — its three downtrend flags unchanged, i.e. only the price/high-point
update applies. -/
theorem short_candle_symbols_excluded (jsqrt : ℚ → ℚ)
    (fetch : String → Except String (List Candle)) (symbols : List SymbolInfo)
    (sym : String) (c : List Candle) (t : TrackedSymbol) (price : ℚ) (now : ℤ)
    (hf : fetch sym = Except.ok c) (hlen : c.length < 30) :
    (∀ r ∈ analyzeSymbols jsqrt fetch symbols, r.symbol ≠ sym) ∧
    ((monitorCycle t price now none).state.signals = t.signals ∧
      (¬ t.highestPrice < price →
        (monitorCycle t price now none).state.downtrend = t.downtrend ∧
        (monitorCycle t price now none).state.downtrendConfirmed = t.downtrendConfirmed ∧
        (monitorCycle t price now none).state.downtrendNotified = t.downtrendNotified)) := by
  constructor
  · induction symbols with
    | nil => simp [analyzeSymbols]
    | cons s rest ih =>
      intro r hr
      simp only [analyzeSymbols] at hr
      cases hfs : fetch s.symbol with
      | error e => rw [hfs] at hr; exact ih r hr
      | ok cs =>
        simp only [hfs] at hr
        by_cases hl : cs.length < 30
        · rw [if_pos hl] at hr; exact ih r hr
        · rw [if_neg hl] at hr
          rcases List.mem_cons.mp hr with h | h
          · subst h
            intro heq
            simp only [analyzeSymbol] at heq
            rw [heq] at hfs
            rw [hf] at hfs
            obtain rfl : c = cs := by injection hfs
            exact hl hlen
          · exact ih r h
  · constructor
    · simp only [monitorCycle, monitorPriceUpdate]
      split_ifs <;> simp
    · intro hp
      simp only [monitorCycle, monitorPriceUpdate]
      rw [if_neg hp]
      exact ⟨rfl, rfl, rfl⟩

/-- Witness for C10 with a fetch that returns ten candles for every symbol. -/
theorem short_candle_symbols_excluded_witness :
    fetchShort "NEWUSDT" = Except.ok shortCandles ∧ shortCandles.length < 30 ∧
    ((∀ r ∈ analyzeSymbols jsqrt0 fetchShort [⟨"NEWUSDT", 5⟩], r.symbol ≠ "NEWUSDT") ∧
    ((monitorCycle suspectState 95 7 none).state.signals = suspectState.signals ∧
      (¬ suspectState.highestPrice < 95 →
        (monitorCycle suspectState 95 7 none).state.downtrend = suspectState.downtrend ∧
        (monitorCycle suspectState 95 7 none).state.downtrendConfirmed =
          suspectState.downtrendConfirmed ∧
        (monitorCycle suspectState 95 7 none).state.downtrendNotified =
          suspectState.downtrendNotified))) :=
  ⟨rfl, by decide,
    short_candle_symbols_excluded jsqrt0 fetchShort [⟨"NEWUSDT", 5⟩] "NEWUSDT"
      shortCandles suspectState 95 7 rfl (by decide)⟩

end Tracker
